import Mathlib

/-!
Shallow embedding of src/crawler.py (a bounded web crawler script) and proofs
about it.  Pure string helpers model the pieces of the Python standard library
the script calls (urllib.parse.urlparse / urljoin, os.path.splitext,
str.splitlines / startswith / strip); the network is modelled as a function
from URL to an HTTP outcome; BeautifulSoup link extraction and json.loads are
external collaborators and appear as function parameters.
-/

set_option autoImplicit false

namespace Crawler

/-- Characters strictly before the first occurrence of `sep`, paired with the
characters strictly after it (the second component is `[]` when `sep` does not
occur). -/
def breakAt (sep : Char) : List Char → List Char × List Char
  | [] => ([], [])
  | c :: cs =>
    if c = sep then ([], cs)
    else
      let p := breakAt sep cs
      (c :: p.1, p.2)

/-- Splits a URL character list at the first "://", returning the scheme
characters and the remainder; `none` when no "://" occurs (a relative
reference).  Models the scheme detection of urllib.parse.urlparse for the
absolute http(s) URLs and bare path references the crawler handles. -/
def splitScheme : List Char → Option (List Char × List Char)
  | [] => none
  | ':' :: '/' :: '/' :: rest => some ([], rest)
  | c :: cs =>
    match splitScheme cs with
    | some p => some (c :: p.1, p.2)
    | none => none

/-- The netloc characters (up to, not including, the first slash) and the path
characters (including that slash). -/
def splitNetloc : List Char → List Char × List Char
  | [] => ([], [])
  | c :: cs =>
    if c = '/' then ([], c :: cs)
    else
      let p := splitNetloc cs
      (c :: p.1, p.2)

/-- The result of urllib.parse.urlparse as the crawler consumes it. -/
structure ParsedUrl where
  scheme : String
  netloc : String
  path : String
  query : String
  fragment : String
deriving DecidableEq

/-- Model of urllib.parse.urlparse: the fragment is everything after the first
hash, the query everything after the first question mark before the fragment,
then scheme and netloc are split off when the remainder is an absolute URL;
otherwise the whole remainder is the path. -/
def urlparse (url : String) : ParsedUrl :=
  let f := breakAt '#' url.toList
  let q := breakAt '?' f.1
  match splitScheme q.1 with
  | some p =>
    let n := splitNetloc p.2
    ⟨String.mk p.1, String.mk n.1, String.mk n.2, String.mk q.2, String.mk f.2⟩
  | none => ⟨"", "", String.mk q.1, String.mk q.2, String.mk f.2⟩

/-- Model of urllib.parse.urljoin restricted to the shapes the crawler uses:
the base is always "scheme://netloc" with an empty path, and the reference is
empty, an absolute URL, an absolute path, or a relative path. -/
def urljoin (base rel : String) : String :=
  if rel = "" then base
  else if (splitScheme rel.toList).isSome then rel
  else if rel.toList.head? = some '/' then base ++ rel
  else base ++ "/" ++ rel

/-- The extension component of os.path.splitext (the first component is never
used by the crawler): the suffix starting at the last dot of the final path
component, where leading dots of that component do not start an extension. -/
def splitext_ext (p : String) : String :=
  let rbase := (breakAt '/' p.toList.reverse).1
  let core := rbase.reverse.dropWhile (fun c => c == '.')
  if core.contains '.' then
    let rext := (breakAt '.' core.reverse).1
    String.mk ('.' :: rext.reverse)
  else ""

/-- Model of str.startswith. -/
def pyStartswith (s p : String) : Bool :=
  p.toList.isPrefixOf s.toList

/-- ASCII whitespace recognised by str.strip. -/
def isSpace (c : Char) : Bool :=
  c == ' ' || c == '\t' || c == '\r' || c == '\n'

/-- Model of str.strip: drop whitespace from both ends. -/
def pyStrip (s : String) : String :=
  String.mk (((s.toList.dropWhile isSpace).reverse.dropWhile isSpace).reverse)

/-- Model of str.splitlines for newline-separated text. -/
def splitlinesGo (acc : List Char) : List Char → List String
  | [] => [String.mk acc.reverse]
  | c :: cs =>
    if c = '\n' then String.mk acc.reverse :: splitlinesGo [] cs
    else splitlinesGo (c :: acc) cs

/-- Model of str.splitlines for newline-separated text. -/
def splitlines (s : String) : List String :=
  splitlinesGo [] s.toList

/-- IGNORE_TYPE from src/crawler.py line 18 (a Python set of extension
strings; only membership is ever used). -/
def IGNORE_TYPE : List String :=
  [".img", ".jpg", ".png", ".jpeg", ".gif", ".mp3", ".mp4", ".cgi", ".wav", ".avi", "wmv", "flv"]

/-- GOOGLE_SEARCH_API_BASE from src/crawler.py line 16. -/
def GOOGLE_SEARCH_API_BASE : String :=
  "https://www.googleapis.com/customsearch/v1"

/-- What one session.get(url) observably yields: either the request raises
(connection error, DNS failure, timeout), or a response with a status code, a
content type and a body arrives. -/
inductive HttpResult where
  | failure
  | resp (status : Nat) (contentType : String) (body : String)
deriving DecidableEq

/-- The network seen by one run: a fixed mapping from URL to HTTP outcome. -/
abbrev Network := String → HttpResult

/-- get_req from src/crawler.py lines 51-58: one GET; raise_for_status raises
on status >= 400 and the catch-all except turns any raise into (None, False),
modelled as none.  The content type of the response is never consulted. -/
def get_req (net : Network) (url : String) : Option String :=
  match net url with
  | .failure => none
  | .resp status _ body => if 400 ≤ status then none else some body

/-- The transformation applied to each "Disallow:" line in robot_exclusion
(line 81): x.replace removes the first occurrence of "Disallow:" - the prefix,
since the line was filtered by startswith - and strip trims whitespace. -/
def stripDisallow (x : String) : String :=
  pyStrip (String.mk (x.toList.drop 9))

/-- robot_exclusion from src/crawler.py lines 71-87: fetch the given
robots.txt URL; a status >= 400 or any raised exception yields the empty
exclusion set; otherwise every line starting with "Disallow:" is stripped and
joined onto the origin, and the resulting absolute URLs form the set. -/
def robot_exclusion (net : Network) (url : String) : Finset String :=
  match net url with
  | .failure => ∅
  | .resp status _ txt =>
    if 400 ≤ status then ∅
    else
      let parsed := urlparse url
      (((splitlines txt).filter (fun x => pyStartswith x "Disallow:")).map
        (fun x => urljoin (parsed.scheme ++ "://" ++ parsed.netloc) (stripDisallow x))).toFinset

/-- The robots.txt URL url_job builds for a page (line 99). -/
def robots_url (page : String) : String :=
  let parsed := urlparse page
  urljoin (parsed.scheme ++ "://" ++ parsed.netloc) "robots.txt"

/-- The per-link canonicalization in url_job's loop (lines 101-102): the key
is built from the page's scheme, the link's own netloc (the page's netloc when
the link has none), and the link's parsed path - the parsed query and fragment
are discarded by construction. -/
def normalize_link (self_scheme self_netloc link : String) : String :=
  let result := urlparse link
  urljoin (self_scheme ++ "://" ++ (if result.netloc = "" then self_netloc else result.netloc))
    result.path

/-- The filter-and-add step of url_job's loop (lines 103-108): skip empty
URLs, skip URLs whose extension is in IGNORE_TYPE or that are members of the
exclusion set, otherwise add to the set. -/
def addLink (exclusion_set url_set : Finset String) (url : String) : Finset String :=
  if url = "" then url_set
  else if splitext_ext url ∈ IGNORE_TYPE ∨ url ∈ exclusion_set then url_set
  else insert url url_set

/-- url_job from src/crawler.py lines 91-109: fetch the page (the bare return
on failure is Python None, modelled as none), fetch the origin's robots.txt,
then canonicalize, filter and collect every anchor href.  `extract` stands for
BeautifulSoup's anchor-href extraction, an external collaborator. -/
def url_job (extract : String → List String) (net : Network) (url : String) :
    Option (Finset String) :=
  let parsed := urlparse url
  match get_req net url with
  | none => none
  | some html_doc =>
    let exclusion_set := robot_exclusion net (robots_url url)
    some ((extract html_doc).foldl
      (fun url_set link =>
        addLink exclusion_set url_set (normalize_link parsed.scheme parsed.netloc link)) ∅)

/-- The merge loop of main (lines 119-121): s = set(); for each gathered
result t, s.update(t).  Python set.update(None) raises TypeError, modelled as
an error value that aborts the loop. -/
def merge_results (results : List (Option (Finset String))) : Except String (Finset String) :=
  results.foldl
    (fun acc t =>
      match acc, t with
      | .error e, _ => .error e
      | .ok _, none => .error "TypeError: NoneType object is not iterable"
      | .ok s, some ts => .ok (s ∪ ts))
    (.ok ∅)

/-- The crawl phase of main (lines 119-122): one url_job per seed URL, results
merged in seed order (asyncio.gather preserves order). -/
def mainCrawl (extract : String → List String) (net : Network) (seeds : List String) :
    Except String (Finset String) :=
  merge_results (seeds.map (url_job extract net))

/-- What the final print reports when the merge completes: the number of
distinct URLs found (len of the Python set). -/
def crawl_output (extract : String → List String) (net : Network) (seeds : List String) :
    Except String Nat :=
  (mainCrawl extract net seeds).map Finset.card

/-- One HTTP request the script issues, tagged by call site: the seed-query
GET in get_seed_urls, the page GET in get_req called from url_job, or the
robots.txt GET in robot_exclusion. -/
inductive Req where
  | seed (url : String)
  | page (url : String)
  | robots (url : String)
deriving DecidableEq

/-- The URL of a page request, none for the other call sites. -/
def Req.pageUrl : Req → Option String
  | .page u => some u
  | _ => none

/-- Whether a request is a robots.txt fetch. -/
def Req.isRobots : Req → Bool
  | .robots _ => true
  | _ => false

/-- The requests one url_job issues, read off its control flow: the page GET
always happens first; the robots.txt GET is awaited only after the page fetch
succeeded (the ok check on line 95 returns before line 99 otherwise); the link
loop performs no requests. -/
def url_job_requests (net : Network) (url : String) : List Req :=
  match get_req net url with
  | none => [.page url]
  | some _ => [.page url, .robots (robots_url url)]

/-- The requests of the crawl phase: main gathers one url_job per seed URL
(line 120), all in a single round. -/
def crawl_requests (net : Network) : List String → List Req
  | [] => []
  | u :: rest => url_job_requests net u ++ crawl_requests net rest

/-- A value argparse stores for a flag declared with action="store_true" but a
non-boolean default: the flag's presence stores True, its absence keeps the
declared default. -/
inductive ArgValue where
  | bool (b : Bool)
  | nat (n : Nat)
  | str (s : String)
deriving DecidableEq

/-- Python str() of a stored argument value, as f-string interpolation renders
it. -/
def ArgValue.toStr : ArgValue → String
  | .bool true => "True"
  | .bool false => "False"
  | .nat n => toString n
  | .str s => s

/-- The parsed argument namespace of parse_args (lines 44-48). -/
structure Args where
  depth : ArgValue
  keyword : ArgValue
deriving DecidableEq

/-- The command line as it matters to parse_args: whether -d was passed and
whether -k was passed (both are store_true flags taking no value). -/
structure CmdLine where
  depthFlag : Bool
  keywordFlag : Bool
deriving DecidableEq

/-- parse_args from src/crawler.py lines 44-48: -d stores True when present,
default 3; -k stores True when present, default "python". -/
def parse_args (c : CmdLine) : Args :=
  { depth := if c.depthFlag then .bool true else .nat 3
    keyword := if c.keywordFlag then .bool true else .str "python" }

/-- The seed-query URL main builds on line 118 from the API base, the key and
engine id taken from the environment, and the keyword argument. -/
def seed_query_url (apiKey cx : String) (args : Args) : String :=
  GOOGLE_SEARCH_API_BASE ++ "?key=" ++ apiKey ++ "&cx=" ++ cx ++ "&q=" ++ args.keyword.toStr

/-- get_seed_urls from src/crawler.py lines 62-66: one get_req; on failure the
function raises "Failed to get results from root server"; on success json.loads
and the formattedUrl projection (external, modelled by itemsOf) produce the
seed list. -/
def get_seed_urls (itemsOf : String → List String) (net : Network) (init_url : String) :
    Except String (List String) :=
  match get_req net init_url with
  | none => .error "Failed to get results from root server"
  | some results => .ok (itemsOf results)

/-- The whole of main (lines 112-122) as a function of the parsed command
line: resolve seeds, crawl them, and report the distinct-URL count; any error
escapes to the top-level handler and no count is reported. -/
def run_main (extract itemsOf : String → List String) (net : Network)
    (apiKey cx : String) (c : CmdLine) : Except String Nat :=
  let args := parse_args c
  match get_seed_urls itemsOf net (seed_query_url apiKey cx args) with
  | .error e => .error e
  | .ok seeds => crawl_output extract net seeds

/-- Every HTTP request a run of main issues, in order: the seed query first,
then the crawl-phase requests. -/
def run_requests (itemsOf : String → List String) (net : Network)
    (apiKey cx : String) (c : CmdLine) : List Req :=
  let args := parse_args c
  let q := seed_query_url apiKey cx args
  match get_req net q with
  | none => [.seed q]
  | some body => .seed q :: crawl_requests net (itemsOf body)

/-! Concrete networks used to evaluate the embedding on the spec's own test
scenarios. -/

/-- An origin h whose robots.txt is served with Disallow: /private/ and which
serves one HTML page. -/
def netRobots : Network := fun url =>
  if url = "http://h/robots.txt" then .resp 200 "text/plain" "User-agent: *\nDisallow: /private/"
  else if url = "http://h/page" then .resp 200 "text/html" "doc"
  else .failure

/-- An origin g with a 404 robots.txt and one good page; every other URL
(e.g. http://bad/) refuses the connection. -/
def netOneBad : Network := fun url =>
  if url = "http://g/robots.txt" then .resp 404 "text/plain" ""
  else if url = "http://g/" then .resp 200 "text/html" "ok-page"
  else .failure

/-- An origin h serving a 200 response whose content type is application/json
rather than text/html; robots.txt is a 404. -/
def netJson : Network := fun url =>
  if url = "http://h/robots.txt" then .resp 404 "text/plain" ""
  else if url = "http://h/data" then .resp 200 "application/json" "json-body"
  else .failure

/-- An origin h with a robots.txt and two HTML pages p1, p2. -/
def netTwo : Network := fun url =>
  if url = "http://h/robots.txt" then .resp 200 "text/plain" "Disallow: /private/"
  else if url = "http://h/p1" then .resp 200 "text/html" "one"
  else if url = "http://h/p2" then .resp 200 "text/html" "two"
  else .failure

/-- A network on which every request fails. -/
def netDown : Network := fun _ => .failure

/-- A network answering 404 to the robots.txt of origin h and failing
everything else. -/
def net404 : Network := fun url =>
  if url = "http://h/robots.txt" then .resp 404 "text/plain" "Disallow: /private/"
  else .failure

/-- Eleven seed URLs on one origin. -/
def seeds11 : List String :=
  ["http://h/1", "http://h/2", "http://h/3", "http://h/4", "http://h/5", "http://h/6",
   "http://h/7", "http://h/8", "http://h/9", "http://h/10", "http://h/11"]

/-! Shared lemmas. -/

/-- Membership after one addLink step: either the element was already there,
or it is the added URL and that URL's extension is not in IGNORE_TYPE. -/
lemma mem_addLink {ex s : Finset String} {v u : String}
    (h : u ∈ addLink ex s v) : u ∈ s ∨ (u = v ∧ splitext_ext v ∉ IGNORE_TYPE) := by
  unfold addLink at h
  split at h
  · exact Or.inl h
  · split at h
    · exact Or.inl h
    · rcases Finset.mem_insert.mp h with h1 | h1
      · rename_i hcond
        exact Or.inr ⟨h1, fun hm => hcond (Or.inl hm)⟩
      · exact Or.inl h1

/-- Invariant of url_job's link loop: every member of the folded set was in
the initial set or has an extension outside IGNORE_TYPE. -/
lemma mem_foldl_addLink (f : String → String) :
    ∀ (links : List String) (ex acc : Finset String) (u : String),
      u ∈ links.foldl (fun url_set link => addLink ex url_set (f link)) acc →
      u ∈ acc ∨ splitext_ext u ∉ IGNORE_TYPE := by
  intro links
  induction links with
  | nil => exact fun ex acc u h => Or.inl h
  | cons l ls ih =>
    intro ex acc u h
    simp only [List.foldl_cons] at h
    rcases ih ex _ u h with h2 | h2
    · rcases mem_addLink h2 with h3 | h3
      · exact Or.inl h3
      · rw [h3.1]
        exact Or.inr h3.2
    · exact Or.inr h2

/-- One url_job issues exactly one page request, for its own URL. -/
lemma url_job_requests_pages (net : Network) (u : String) :
    (url_job_requests net u).filterMap Req.pageUrl = [u] := by
  unfold url_job_requests
  cases hg : get_req net u <;> simp [Req.pageUrl]

/-- The page requests of the crawl phase are exactly the seed URLs, in
order. -/
lemma crawl_requests_pages (net : Network) (seeds : List String) :
    (crawl_requests net seeds).filterMap Req.pageUrl = seeds := by
  induction seeds with
  | nil => rfl
  | cons u rest ih =>
    simp only [crawl_requests, List.filterMap_append, url_job_requests_pages, ih,
      List.singleton_append]

/-- One url_job issues one robots request when its page fetch succeeded and
none otherwise. -/
lemma url_job_requests_robots_count (net : Network) (u : String) :
    (url_job_requests net u).countP Req.isRobots
      = if (get_req net u).isSome then 1 else 0 := by
  unfold url_job_requests
  cases hg : get_req net u <;> simp [Req.isRobots, List.countP_cons]

/-! Claim theorems. -/

/-- C1 (code bug): in a batch of two seeds where the second URL refuses the
connection, the merge loop does not complete with the successful URL's links:
url_job returns None for the failed URL and s.update(None) raises TypeError,
so no distinct-URL count is reported. -/
theorem c1_merge_crashes :
    mainCrawl (fun _ => ["/x.html"]) netOneBad ["http://g/", "http://bad/"]
      = .error "TypeError: NoneType object is not iterable" ∧
    crawl_output (fun _ => ["/x.html"]) netOneBad ["http://g/", "http://bad/"]
      = .error "TypeError: NoneType object is not iterable" := ⟨rfl, rfl⟩

/-- C2 (counterexample): with 11 seed URLs every one of them is dispatched -
11 page fetches - so a configured page budget of 10 does not bound the
dispatched URLs. -/
theorem c2_counterexample :
    ((crawl_requests netDown seeds11).filterMap Req.pageUrl).length = 11 ∧
    ¬(((crawl_requests netDown seeds11).filterMap Req.pageUrl).length ≤ 10) := by
  decide

/-- C2 (amended): the crawler has no page budget and no dispatch counter: in
its single dispatch round it fetches exactly the seed URLs, one page request
per seed, however many seeds there are, and nothing halts the dispatch at any
count. -/
theorem c2_amended (net : Network) (seeds : List String) :
    (crawl_requests net seeds).filterMap Req.pageUrl = seeds ∧
    ((crawl_requests net seeds).filterMap Req.pageUrl).length = seeds.length := by
  have h := crawl_requests_pages net seeds
  exact ⟨h, by rw [h]⟩

/-- C3 (code bug): with Disallow: /private/ recorded for origin h, the exact
disallowed URL http://h/private/ is dropped, but a link under the prefix,
/private/secret.html, is still added (and /public/a.html is added): the
exclusion check is string equality against the set, not a path-prefix test. -/
theorem c3_exact_match_bug :
    robot_exclusion netRobots "http://h/robots.txt" = {"http://h/private/"} ∧
    (url_job (fun _ => ["/private/secret.html", "/public/a.html", "/private/"])
        netRobots "http://h/page").getD ∅
      = {"http://h/private/secret.html", "http://h/public/a.html"} := by
  decide

/-- C4 (counterexample): the same URL appearing twice among the seeds is
fetched twice - there is no deduplication before dispatch. -/
theorem c4_counterexample :
    ((crawl_requests netDown ["http://h/a", "http://h/a"]).filterMap Req.pageUrl).count
        "http://h/a" = 2 ∧
    ¬(((crawl_requests netDown ["http://h/a", "http://h/a"]).filterMap Req.pageUrl).count
        "http://h/a" ≤ 1) := by
  decide

/-- C4 (amended): a URL is fetched exactly as many times as it occurs in the
seed list - not at most once; only the reported result set deduplicates, the
dispatch does not. -/
theorem c4_amended (net : Network) (seeds : List String) (u : String) :
    ((crawl_requests net seeds).filterMap Req.pageUrl).count u = seeds.count u := by
  rw [crawl_requests_pages]

/-- C5 (code bug): the content type of a response is never consulted: a 200
response delivered as application/json still has links extracted from its
body and contributes them to the result set. -/
theorem c5_content_type_ignored :
    (url_job (fun _ => ["/found.html"]) netJson "http://h/data").isSome ∧
    "http://h/found.html" ∈ (url_job (fun _ => ["/found.html"]) netJson "http://h/data").getD ∅ := by
  decide

/-- C6 (counterexample): two URLs on the same uncached origin dispatched in
the same batch trigger two robots.txt fetches, not exactly one. -/
theorem c6_counterexample :
    (crawl_requests netTwo ["http://h/p1", "http://h/p2"]).countP Req.isRobots = 2 ∧
    ¬((crawl_requests netTwo ["http://h/p1", "http://h/p2"]).countP Req.isRobots = 1) := by
  decide

/-- C6 (amended): robots.txt is fetched once per successfully fetched page,
not once per origin - there is no per-origin cache, so the number of robots
fetches in a batch equals the number of pages in it whose fetch succeeded. -/
theorem c6_amended (net : Network) (seeds : List String) :
    (crawl_requests net seeds).countP Req.isRobots
      = seeds.countP (fun u => (get_req net u).isSome) := by
  induction seeds with
  | nil => rfl
  | cons u rest ih =>
    simp only [crawl_requests, List.countP_append, List.countP_cons,
      url_job_requests_robots_count, ih]
    cases hg : (get_req net u).isSome <;> simp [Nat.add_comm]

/-- C7 (counterexample): two links differing only in the query string
normalize to the same key, not to different keys. -/
theorem c7_counterexample :
    normalize_link "http" "a.com" "http://a.com/x?q=1"
      = normalize_link "http" "a.com" "http://a.com/x?q=2" := by
  decide

/-- C7 (amended): normalization strips the fragment and the query string
alike: the key depends only on the parsed netloc and path of the raw link, so
links differing only in fragment - and also links differing only in query -
normalize to the same key. -/
theorem c7_amended (s n l1 l2 : String)
    (hnet : (urlparse l1).netloc = (urlparse l2).netloc)
    (hpath : (urlparse l1).path = (urlparse l2).path) :
    normalize_link s n l1 = normalize_link s n l2 := by
  simp only [normalize_link]
  rw [hnet, hpath]

/-- C7 (witness): the two fragment-only variants of http://a.com/x normalize
to the same key. -/
theorem c7_witness :
    normalize_link "http" "a.com" "http://a.com/x#section1"
      = normalize_link "http" "a.com" "http://a.com/x#section2" :=
  c7_amended "http" "a.com" "http://a.com/x#section1" "http://a.com/x#section2"
    (by decide) (by decide)

/-- C8: if the robots.txt fetch for an origin fails (the request raises) or
returns an error status such as 404, the resulting exclusion set is empty, so
every URL on that origin passes the robots check (fail-open). -/
theorem c8_fail_open (net : Network) (rurl : String)
    (h : net rurl = .failure ∨ ∃ st ct b, net rurl = .resp st ct b ∧ 400 ≤ st) :
    robot_exclusion net rurl = ∅ ∧ ∀ u : String, u ∉ robot_exclusion net rurl := by
  have he : robot_exclusion net rurl = ∅ := by
    unfold robot_exclusion
    rcases h with h | ⟨st, ct, b, h, hst⟩
    · rw [h]
    · rw [h]
      simp [hst]
  exact ⟨he, fun u => by rw [he]; exact Finset.not_mem_empty u⟩

/-- C8 (witness): a 404 robots.txt on origin h yields the empty exclusion
set, and a /private/ URL on that origin is not excluded. -/
theorem c8_witness :
    robot_exclusion net404 "http://h/robots.txt" = ∅ ∧
    "http://h/private/x" ∉ robot_exclusion net404 "http://h/robots.txt" :=
  ⟨(c8_fail_open net404 "http://h/robots.txt"
      (Or.inr ⟨404, "text/plain", "Disallow: /private/", by decide, by decide⟩)).1,
   (c8_fail_open net404 "http://h/robots.txt"
      (Or.inr ⟨404, "text/plain", "Disallow: /private/", by decide, by decide⟩)).2
     "http://h/private/x"⟩

/-- C9: whatever the network and the robots policy, a link whose normalized
URL ends in .png, .mp4 or .cgi is never a member of url_job's result set: the
extension filter drops it before it reaches the collected set. -/
theorem c9_extension_filter (extract : String → List String) (net : Network)
    (page v : String) (S : Finset String)
    (h : url_job extract net page = some S)
    (hext : splitext_ext v = ".png" ∨ splitext_ext v = ".mp4" ∨ splitext_ext v = ".cgi") :
    v ∉ S := by
  intro hv
  unfold url_job at h
  cases hg : get_req net page with
  | none => rw [hg] at h; exact Option.noConfusion h
  | some d =>
    rw [hg] at h
    have hS := Option.some.inj h
    rw [← hS] at hv
    rcases mem_foldl_addLink
        (normalize_link (urlparse page).scheme (urlparse page).netloc)
        (extract d) (robot_exclusion net (robots_url page)) ∅ v hv with h2 | h2
    · exact Finset.not_mem_empty v h2
    · apply h2
      rcases hext with he | he | he <;> rw [he] <;> decide

/-- C9 (witness): on a concrete page whose anchors include /pic.png, /vid.mp4
and /script.cgi, the normalized http://h/pic.png is not in the resulting
set. -/
theorem c9_witness :
    "http://h/pic.png" ∉ ({"http://h/a.html"} : Finset String) :=
  c9_extension_filter (fun _ => ["/a.html", "/pic.png", "/vid.mp4", "/script.cgi"])
    netRobots "http://h/page" "http://h/pic.png" {"http://h/a.html"}
    (by decide) (by decide)

/-- C10: the parsed depth value is never consulted after argument parsing:
two runs differing only in the -d flag issue the same HTTP requests and
produce the same printed output. -/
theorem c10_depth_irrelevant (extract itemsOf : String → List String) (net : Network)
    (apiKey cx : String) (d1 d2 k : Bool) :
    run_main extract itemsOf net apiKey cx ⟨d1, k⟩
      = run_main extract itemsOf net apiKey cx ⟨d2, k⟩ ∧
    run_requests itemsOf net apiKey cx ⟨d1, k⟩
      = run_requests itemsOf net apiKey cx ⟨d2, k⟩ :=
  ⟨rfl, rfl⟩

end Crawler
